import Mathlib

/-!
Verification of the scheduler/lifecycle subsystem of tracking.js
(TrackerTask run/stop state machine, the requestAnimationFrame video
sampling loop in trackVideo_, and the track entry-point dispatch).

The definitions below are a shallow embedding of the JavaScript source:

* `TrackerTask.run` / `TrackerTask.stop` embed TrackerTask.run and
  TrackerTask.stop.  Each method body is a list of primitive operations
  (`Op`) in exact source order, folded over the task state, so that
  statements about the order of the emitted `stop` signal and the
  listener removal are meaningful.
* `videoTick` embeds the body of the callback registered by
  requestAnimationFrame_ inside trackVideo_, and `runTicks` iterates it
  for M ticks with per-tick readiness and copy-fault inputs.
* `trackVideoFreq` embeds the freq-option read at the top of trackVideo_
  and `track` embeds the element/tracker dispatch of the track function.

The EventEmitter base class (src/utils/EventEmitter.js) is not part of
the provided sources; its on/emit/removeListener behaviour is modelled
from the spec as an ordered per-event listener list (see `applyOp` and
`Tracker.emitTrack`).
-/

namespace Tracking

/-- State of one TrackerTask together with the tracker it manages and
observation logs.  `running` embeds the field running_; `reemitTrackEvent_`
holds the identifier of the relay closure assigned by run (none before the
first run, never cleared by stop, exactly as in the source);
`trackerTrackListeners` models the ordered listener list the tracker's
EventEmitter keeps for its track event (only relay closures are ever
registered there by this subsystem); `nextId` generates a fresh identifier
for each relay closure created by run; `runSignals` / `stopSignals` count
the task's emitted run / stop lifecycle events; `relayedEvents` logs every
detection event the relay re-emitted to the task's external listeners. -/
structure TaskState where
  running : Bool
  reemitTrackEvent_ : Option Nat
  trackerTrackListeners : List Nat
  nextId : Nat
  runSignals : Nat
  stopSignals : Nat
  relayedEvents : List Nat
deriving DecidableEq

/-- Primitive operations appearing in the bodies of TrackerTask.run and
TrackerTask.stop, one per source statement that touches observable state. -/
inductive Op
  | setRunning (b : Bool)
  | assignRelay
  | addRelay
  | emitRun
  | emitStop
  | removeRelay
deriving DecidableEq

/-- Effect of one primitive operation on the task state.  `addRelay` and
`removeRelay` are the tracker-side on / removeListener calls.  Modelled from
the spec: src/utils/EventEmitter.js is absent from the sources, so on
appends to an ordered listener list and removeListener erases the listener
equal to the stored relay closure, per the spec's per-instance
publish/subscribe description. -/
def applyOp (s : TaskState) : Op → TaskState
  | Op.setRunning b => { s with running := b }
  | Op.assignRelay =>
      { s with reemitTrackEvent_ := some s.nextId, nextId := s.nextId + 1 }
  | Op.addRelay =>
      match s.reemitTrackEvent_ with
      | some id => { s with trackerTrackListeners := s.trackerTrackListeners ++ [id] }
      | none => s
  | Op.emitRun => { s with runSignals := s.runSignals + 1 }
  | Op.emitStop => { s with stopSignals := s.stopSignals + 1 }
  | Op.removeRelay =>
      match s.reemitTrackEvent_ with
      | some id => { s with trackerTrackListeners := s.trackerTrackListeners.erase id }
      | none => s

/-- Folds a list of primitive operations over the task state. -/
def applyOps (s : TaskState) (ops : List Op) : TaskState :=
  ops.foldl applyOp s

/-- Body of TrackerTask.run in source order: setRunning(true), assign the
reemitTrackEvent_ closure, tracker_.on with that closure, emit the run
signal.  Empty when the early-return guard inRunning() fires. -/
def TrackerTask.runOps (s : TaskState) : List Op :=
  if s.running then []
  else [Op.setRunning true, Op.assignRelay, Op.addRelay, Op.emitRun]

/-- Body of TrackerTask.stop in source order: setRunning(false), emit the
stop signal, tracker_.removeListener.  Empty when not running. -/
def TrackerTask.stopOps (s : TaskState) : List Op :=
  if s.running then [Op.setRunning false, Op.emitStop, Op.removeRelay]
  else []

/-- TrackerTask.run.  The second component is the returned value: some ()
models `return this`, none models the bare `return;` taken when the task is
already running. -/
def TrackerTask.run (s : TaskState) : TaskState × Option Unit :=
  if s.running then (s, none)
  else (applyOps s (TrackerTask.runOps s), some ())

/-- TrackerTask.stop.  The second component is the returned value: some ()
models `return this`, none the bare `return;` taken when not running. -/
def TrackerTask.stop (s : TaskState) : TaskState × Option Unit :=
  if s.running then (applyOps s (TrackerTask.stopOps s), some ())
  else (s, none)

/-- Dispatch of a detection event e on the tracker's track event stream:
every registered listener is a relay closure created by run, and each one
re-emits e to the task's external listeners.  Modelled from the spec:
EventEmitter.emit invokes the registered listeners in order. -/
def Tracker.emitTrack (s : TaskState) (e : Nat) : TaskState :=
  { s with relayedEvents := s.relayedEvents ++ s.trackerTrackListeners.map (fun _ => e) }

/-- Commands an environment can perform on a task: call run, call stop, or
have the tracker emit a detection event. -/
inductive Cmd
  | run
  | stop
  | emitTrack (e : Nat)
deriving DecidableEq

/-- State transition of one command. -/
def step (s : TaskState) : Cmd → TaskState
  | Cmd.run => (TrackerTask.run s).1
  | Cmd.stop => (TrackerTask.stop s).1
  | Cmd.emitTrack e => Tracker.emitTrack s e

/-- State of a freshly constructed TrackerTask: not running, no relay
closure assigned, no listener registered on the tracker. -/
def initialTask : TaskState :=
  { running := false, reemitTrackEvent_ := none, trackerTrackListeners := []
    nextId := 0, runSignals := 0, stopSignals := 0, relayedEvents := [] }

/-- State reached from a freshly constructed task after a sequence of
commands. -/
def execCmds (cs : List Cmd) : TaskState :=
  cs.foldl step initialTask

/-- Reachability invariant tying the relay registration on the tracker to
the running flag: while running the tracker holds exactly the one relay
closure stored in reemitTrackEvent_, and while not running it holds none. -/
def Inv (s : TaskState) : Prop :=
  (s.running = true →
    ∃ id, s.reemitTrackEvent_ = some id ∧ s.trackerTrackListeners = [id])
  ∧ (s.running = false → s.trackerTrackListeners = [])

/-- Working state of the requestAnimationFrame_ sampling loop inside
trackVideo_: `count` is the tick counter, `buffer` the content of the
working canvas (the tick index of the last frame drawImage copied
successfully, none while still blank), `tracked` logs every call of
trackCanvasInternal_, i.e. every invocation of tracker.track, as the pair
of the tick index and the buffer content passed. -/
structure LoopState where
  count : Nat
  buffer : Option Nat
  tracked : List (Nat × Option Nat)
deriving DecidableEq

/-- One tick of the requestAnimationFrame_ callback in trackVideo_ at tick
index i: increment count; when count reaches a multiple of freq, reset it
to 0 and, if the source reports ready, try drawImage (a faulting copy is
swallowed by the empty catch, leaving the buffer unchanged) and then call
trackCanvasInternal_ unconditionally with the current buffer; finally the
callback re-registers itself, which `runTicks` models by processing the
next tick. -/
def videoTick (freq : Nat) (ready fault : Bool) (i : Nat) (s : LoopState) : LoopState :=
  if (s.count + 1) % freq = 0 then
    if ready then
      let buf := if fault then s.buffer else some i
      { count := 0, buffer := buf, tracked := s.tracked ++ [(i, buf)] }
    else
      { s with count := 0 }
  else
    { s with count := s.count + 1 }

/-- Runs the sampling loop for M ticks, numbered 1..M, with per-tick
readiness (readyState === HAVE_ENOUGH_DATA) and per-tick copy-fault inputs. -/
def runTicks (freq : Nat) (ready fault : Nat → Bool) (M : Nat) : LoopState :=
  (List.range M).foldl
    (fun s k => videoTick freq (ready (k + 1)) (fault (k + 1)) (k + 1) s)
    { count := 0, buffer := none, tracked := [] }

/-- Caller-supplied options object for trackVideo_.  `freq` is some v when
the freq key is present on the object with value v, none when absent. -/
structure VideoOptions where
  freq : Option Nat
deriving DecidableEq

/-- Errors thrown by the track entry point, the TrackerTask constructor and
trackVideo_. -/
inductive TrackError
  | elementNotFound
  | trackerNotSpecified
  | elementNotSupported
  | trackerInstanceNotSpecified
  | typeError
deriving DecidableEq

/-- Embeds the statement `var freq = 'freq' in opt_options ? opt_options.freq
: 100;` at the top of trackVideo_.  When no options object was supplied the
`in` operator on undefined throws a TypeError; this line runs before the
TrackerTask is constructed and before any tick is registered. -/
def trackVideoFreq : Option VideoOptions → Except TrackError Nat
  | none => Except.error TrackError.typeError
  | some o =>
      Except.ok (match o.freq with
        | some v => v
        | none => 100)

/-- Kind of the resolved DOM element, from nodeName. -/
inductive ElementKind
  | canvas
  | img
  | video
  | other
deriving DecidableEq

/-- Successful outcome of the track entry point: which kind of task was
constructed and started; for a video task, the frequency divisor in use. -/
inductive Outcome
  | canvasTask
  | imgTask
  | videoTask (freq : Nat)
deriving DecidableEq

/-- Embeds the track entry point: resolve the element (none models a source
handle resolving to no concrete element), throw if no tracker was supplied,
then dispatch on the element kind; an unrecognized kind throws.  An error
value means the throw happened before any task was constructed or run. -/
def track (elt : Option ElementKind) (hasTracker : Bool)
    (opts : Option VideoOptions) : Except TrackError Outcome :=
  match elt with
  | none => Except.error TrackError.elementNotFound
  | some k =>
      if hasTracker then
        match k with
        | ElementKind.canvas => Except.ok Outcome.canvasTask
        | ElementKind.img => Except.ok Outcome.imgTask
        | ElementKind.video => Except.map Outcome.videoTask (trackVideoFreq opts)
        | ElementKind.other => Except.error TrackError.elementNotSupported
      else Except.error TrackError.trackerNotSpecified

/-- Embeds the TrackerTask constructor: throws when no tracker instance is
supplied, otherwise yields a fresh task state. -/
def TrackerTask.new (trackerSupplied : Bool) : Except TrackError TaskState :=
  if trackerSupplied then Except.ok initialTask
  else Except.error TrackError.trackerInstanceNotSpecified

/-! Helper lemmas about the sampling loop. -/

/-- Processing one more tick appends one videoTick application. -/
theorem runTicks_succ (freq : Nat) (ready fault : Nat → Bool) (M : Nat) :
    runTicks freq ready fault (M + 1)
      = videoTick freq (ready (M + 1)) (fault (M + 1)) (M + 1)
          (runTicks freq ready fault M) := by
  unfold runTicks
  rw [List.range_succ, List.foldl_append]
  rfl

/-- With readiness always true and a positive divisor N, after M ticks the
counter holds M % N and tracker.track was invoked exactly on the ticks
N, 2N, 3N, ... up to M. -/
theorem runTicks_ready_true (N : Nat) (hN : 0 < N) (fault : Nat → Bool) (M : Nat) :
    (runTicks N (fun _ => true) fault M).count = M % N
    ∧ (runTicks N (fun _ => true) fault M).tracked.map Prod.fst
        = (List.range (M / N)).map (fun k => (k + 1) * N) := by
  induction M with
  | zero =>
      constructor
      · simp [runTicks]
      · simp [runTicks, Nat.zero_div]
  | succ M ih =>
      obtain ⟨ihc, iht⟩ := ih
      rw [runTicks_succ]
      by_cases hdvd : (M + 1) % N = 0
      · have hcond : ((runTicks N (fun _ => true) fault M).count + 1) % N = 0 := by
          rw [ihc, Nat.mod_add_mod]
          exact hdvd
        have hdiv : (M + 1) / N = M / N + 1 := by
          rw [Nat.succ_div, if_pos (Nat.dvd_of_mod_eq_zero hdvd)]
        constructor
        · simp [videoTick, hcond, hdvd]
        · have hmul : (M / N + 1) * N = M + 1 := by
            have h1 : (M + 1) / N * N = M + 1 :=
              Nat.div_mul_cancel (Nat.dvd_of_mod_eq_zero hdvd)
            rw [← hdiv]
            exact h1
          simp [videoTick, hcond, hdiv, List.range_succ, iht, hmul]
      · have hcond : ¬ ((runTicks N (fun _ => true) fault M).count + 1) % N = 0 := by
          rw [ihc, Nat.mod_add_mod]
          exact hdvd
        have hnd : ¬ N ∣ (M + 1) := by
          intro hd
          obtain ⟨c, hc⟩ := hd
          apply hdvd
          rw [hc]
          exact Nat.mul_mod_right N c
        have hdiv : (M + 1) / N = M / N := by
          rw [Nat.succ_div, if_neg hnd]
          exact Nat.add_zero (M / N)
        have hcount : (runTicks N (fun _ => true) fault M).count + 1 = (M + 1) % N := by
          have hle : M % N + 1 ≤ N := Nat.succ_le_of_lt (Nat.mod_lt M hN)
          rcases Nat.lt_or_ge (M % N + 1) N with hlt | hge
          · rw [ihc]
            have : (M + 1) % N = (M % N + 1) % N := by
              rw [Nat.mod_add_mod]
            rw [this, Nat.mod_eq_of_lt hlt]
          · exfalso
            have heq : M % N + 1 = N := Nat.le_antisymm hle hge
            apply hdvd
            rw [← Nat.mod_add_mod, heq, Nat.mod_self]
        constructor
        · simp [videoTick, hcond, ← hcount, ihc]
        · simp [videoTick, hcond, hdiv, iht]

/-- With divisor 1 every tick is an extraction attempt; the ticks on which
tracker.track is invoked are exactly the ticks on which the source was
ready (copies all succeeding). -/
theorem runTicks_freq_one (ready : Nat → Bool) (M : Nat) :
    (runTicks 1 ready (fun _ => false) M).tracked.map Prod.fst
      = ((List.range M).map (fun k => k + 1)).filter ready := by
  induction M with
  | zero => simp [runTicks]
  | succ M ih =>
      rw [runTicks_succ]
      by_cases hr : ready (M + 1)
      · simp [videoTick, hr, List.range_succ, ih, Nat.mod_one, List.filter_append]
      · simp [videoTick, hr, List.range_succ, ih, Nat.mod_one, List.filter_append]

/-! Helper lemmas about the task state machine. -/

/-- Explicit form of run from a non-running state. -/
theorem run_of_not_running (s : TaskState) (h : s.running = false) :
    TrackerTask.run s
      = ({ running := true, reemitTrackEvent_ := some s.nextId,
           trackerTrackListeners := s.trackerTrackListeners ++ [s.nextId],
           nextId := s.nextId + 1, runSignals := s.runSignals + 1,
           stopSignals := s.stopSignals, relayedEvents := s.relayedEvents },
         some ()) := by
  simp [TrackerTask.run, TrackerTask.runOps, applyOps, applyOp, h]

/-- Explicit form of stop from a running state whose relay closure is
registered exactly once on the tracker. -/
theorem stop_of_running (s : TaskState) (id : Nat) (hr : s.running = true)
    (hre : s.reemitTrackEvent_ = some id)
    (hl : s.trackerTrackListeners = [id]) :
    TrackerTask.stop s
      = ({ running := false, reemitTrackEvent_ := some id,
           trackerTrackListeners := [], nextId := s.nextId,
           runSignals := s.runSignals, stopSignals := s.stopSignals + 1,
           relayedEvents := s.relayedEvents },
         some ()) := by
  simp [TrackerTask.stop, TrackerTask.stopOps, applyOps, applyOp, hr, hre, hl,
    List.erase_cons]

/-- Every command preserves the relay/running invariant. -/
theorem inv_step (s : TaskState) (c : Cmd) (h : Inv s) : Inv (step s c) := by
  obtain ⟨h1, h2⟩ := h
  cases c with
  | run =>
      by_cases hr : s.running = true
      · simpa [step, TrackerTask.run, hr] using ⟨h1, h2⟩
      · have hf : s.running = false := by
          cases hb : s.running
          · rfl
          · exact absurd hb hr
        have hl := h2 hf
        rw [show step s Cmd.run = (TrackerTask.run s).1 from rfl,
          run_of_not_running s hf]
        refine ⟨fun _ => ⟨s.nextId, rfl, ?_⟩, fun hco => by simp at hco⟩
        simp [hl]
  | stop =>
      by_cases hr : s.running = true
      · obtain ⟨id, hre, hl⟩ := h1 hr
        rw [show step s Cmd.stop = (TrackerTask.stop s).1 from rfl,
          stop_of_running s id hr hre hl]
        exact ⟨fun hco => by simp at hco, fun _ => rfl⟩
      · have hf : s.running = false := by
          cases hb : s.running
          · rfl
          · exact absurd hb hr
        simpa [step, TrackerTask.stop, hf] using ⟨h1, h2⟩
  | emitTrack e =>
      exact ⟨fun hr => by
          obtain ⟨id, hre, hl⟩ := h1 hr
          exact ⟨id, hre, hl⟩,
        fun hf => h2 hf⟩

/-- The invariant holds after any fold of commands from an invariant state. -/
theorem inv_foldl (cs : List Cmd) (s : TaskState) (h : Inv s) :
    Inv (cs.foldl step s) := by
  induction cs generalizing s with
  | nil => exact h
  | cons c cs ih => exact ih (step s c) (inv_step s c h)

/-- The invariant holds in every reachable state. -/
theorem inv_exec (cs : List Cmd) : Inv (execCmds cs) := by
  refine inv_foldl cs initialTask ⟨fun hr => ?_, fun _ => rfl⟩
  simp [initialTask] at hr

/-- Once the tracker's listener list is empty, any sequence of detection
events emitted by the tracker relays nothing. -/
theorem emit_fold_no_listeners (es : List Nat) (s : TaskState)
    (h : s.trackerTrackListeners = []) :
    ((es.map Cmd.emitTrack).foldl step s).relayedEvents = s.relayedEvents := by
  induction es generalizing s with
  | nil => rfl
  | cons e es ih =>
      have hstep : step s (Cmd.emitTrack e)
          = { s with relayedEvents := s.relayedEvents } := by
        simp [step, Tracker.emitTrack, h]
      rw [List.map_cons, List.foldl_cons, hstep]
      exact ih { s with relayedEvents := s.relayedEvents } h

/-! Claim theorems. -/

/-- Claim C1: for every positive frequency N and M ticks of the video
sampling loop with readiness always true, tracker.track is invoked exactly
floor(M / N) times, precisely on ticks N, 2N, 3N, ..., and the tick counter
is reset to 0 after each extraction (after M ticks it holds M % N). -/
theorem trackVideo_frequency_c1 (N M : Nat) (fault : Nat → Bool) (hN : 0 < N) :
    (runTicks N (fun _ => true) fault M).tracked.map Prod.fst
        = (List.range (M / N)).map (fun k => (k + 1) * N)
    ∧ (runTicks N (fun _ => true) fault M).tracked.length = M / N
    ∧ (runTicks N (fun _ => true) fault M).count = M % N := by
  obtain ⟨hc, ht⟩ := runTicks_ready_true N hN fault M
  refine ⟨ht, ?_, hc⟩
  have hlen := congrArg List.length ht
  simpa using hlen

/-- Claim C1 witness at N = 3, M = 7, no copy faults. -/
theorem trackVideo_frequency_c1_witness :
    0 < 3
    ∧ ((runTicks 3 (fun _ => true) (fun _ => false) 7).tracked.map Prod.fst
        = (List.range (7 / 3)).map (fun k => (k + 1) * 3)
      ∧ (runTicks 3 (fun _ => true) (fun _ => false) 7).tracked.length = 7 / 3
      ∧ (runTicks 3 (fun _ => true) (fun _ => false) 7).count = 7 % 3) :=
  ⟨by decide, trackVideo_frequency_c1 3 7 (fun _ => false) (by decide)⟩

/-- Claim C2 counterexample: with frequency 1, readiness always true and a
copy fault on tick 2 only, the claim says no track invocation happens on
tick 2; in the code trackCanvasInternal_ runs after the empty catch, so
tick 2 does invoke tracker.track, with the stale buffer from tick 1. -/
theorem copyFault_c2_counterexample :
    2 ∈ (runTicks 1 (fun _ => true) (fun j => j == 2) 3).tracked.map Prod.fst
    ∧ (runTicks 1 (fun _ => true) (fun j => j == 2) 3).tracked
        = [(1, some 1), (2, some 1), (3, some 3)] := by
  decide

/-- Claim C2 amended: on a divisor tick with readiness true and a faulting
copy, the fault is swallowed, the buffer keeps its previous content, the
loop continues (counter reset, state returned for the re-registered next
tick), but tracker.track is still invoked for the tick, receiving the
buffer content from the last successful copy. -/
theorem copyFault_c2_amended (freq i : Nat) (s : LoopState)
    (h : (s.count + 1) % freq = 0) :
    videoTick freq true true i s
      = { count := 0, buffer := s.buffer, tracked := s.tracked ++ [(i, s.buffer)] } := by
  simp [videoTick, h]

/-- Claim C2 amended witness: a faulting copy on tick 2 with a buffer
holding frame 1. -/
theorem copyFault_c2_witness :
    (0 + 1) % 1 = 0
    ∧ videoTick 1 true true 2 { count := 0, buffer := some 1, tracked := [] }
        = { count := 0, buffer := some 1, tracked := [(2, some 1)] } :=
  ⟨by decide,
    copyFault_c2_amended 1 2 { count := 0, buffer := some 1, tracked := [] } (by decide)⟩

/-- Claim C3: from any reachable running state, the body of stop performs
setRunning(false), then emits the stop signal, and only then removes the
relay listener; a detection dispatched after the stop signal but before the
removal is still relayed (exactly once); and after stop completes, no
sequence of detection events emitted by the tracker relays anything. -/
theorem stop_relay_c3 (cs : List Cmd) (e : Nat) (es : List Nat)
    (h : (execCmds cs).running = true) :
    TrackerTask.stopOps (execCmds cs)
        = [Op.setRunning false, Op.emitStop, Op.removeRelay]
    ∧ (Tracker.emitTrack
          (applyOps (execCmds cs) [Op.setRunning false, Op.emitStop]) e).relayedEvents
        = (execCmds cs).relayedEvents ++ [e]
    ∧ ((es.map Cmd.emitTrack).foldl step (step (execCmds cs) Cmd.stop)).relayedEvents
        = (step (execCmds cs) Cmd.stop).relayedEvents := by
  obtain ⟨h1, h2⟩ := inv_exec cs
  obtain ⟨id, hre, hl⟩ := h1 h
  refine ⟨by simp [TrackerTask.stopOps, h], ?_, ?_⟩
  · simp [applyOps, applyOp, Tracker.emitTrack, hl]
  · have hstop := stop_of_running (execCmds cs) id h hre hl
    rw [show step (execCmds cs) Cmd.stop = (TrackerTask.stop (execCmds cs)).1 from rfl,
      hstop]
    exact emit_fold_no_listeners es _ rfl

/-- Claim C3 witness: one run, a detection event 7 in the window between
the stop signal and the listener removal, detections 8 and 9 after stop. -/
theorem stop_relay_c3_witness :
    (execCmds [Cmd.run]).running = true
    ∧ (TrackerTask.stopOps (execCmds [Cmd.run])
          = [Op.setRunning false, Op.emitStop, Op.removeRelay]
      ∧ (Tracker.emitTrack
            (applyOps (execCmds [Cmd.run]) [Op.setRunning false, Op.emitStop]) 7).relayedEvents
          = (execCmds [Cmd.run]).relayedEvents ++ [7]
      ∧ (([8, 9].map Cmd.emitTrack).foldl step (step (execCmds [Cmd.run]) Cmd.stop)).relayedEvents
          = (step (execCmds [Cmd.run]) Cmd.stop).relayedEvents) :=
  ⟨by decide, stop_relay_c3 [Cmd.run] 7 [8, 9] (by decide)⟩

/-- Claim C4: from any reachable non-running state, two consecutive run
calls emit exactly one run signal and leave exactly one relay listener on
the tracker's track stream, and stop on a non-running task is a no-op that
changes nothing, emits no stop signal and raises no error (it returns the
bare-return value none). -/
theorem run_idempotent_c4 (cs : List Cmd) (h : (execCmds cs).running = false) :
    (step (step (execCmds cs) Cmd.run) Cmd.run).runSignals
        = (execCmds cs).runSignals + 1
    ∧ (step (step (execCmds cs) Cmd.run) Cmd.run).trackerTrackListeners.length = 1
    ∧ TrackerTask.stop (execCmds cs) = (execCmds cs, none) := by
  obtain ⟨h1, h2⟩ := inv_exec cs
  have hl := h2 h
  have hrun := run_of_not_running (execCmds cs) h
  have hs1 : step (execCmds cs) Cmd.run
      = { running := true, reemitTrackEvent_ := some (execCmds cs).nextId,
          trackerTrackListeners := (execCmds cs).trackerTrackListeners ++ [(execCmds cs).nextId],
          nextId := (execCmds cs).nextId + 1,
          runSignals := (execCmds cs).runSignals + 1,
          stopSignals := (execCmds cs).stopSignals,
          relayedEvents := (execCmds cs).relayedEvents } := by
    simp [step, hrun]
  have hs2 : step (step (execCmds cs) Cmd.run) Cmd.run
      = step (execCmds cs) Cmd.run := by
    rw [hs1]
    simp [step, TrackerTask.run]
  refine ⟨?_, ?_, by simp [TrackerTask.stop, h]⟩
  · rw [hs2, hs1]
  · rw [hs2, hs1]
    simp [hl]

/-- Claim C4 witness on a freshly constructed task. -/
theorem run_idempotent_c4_witness :
    (execCmds []).running = false
    ∧ ((step (step (execCmds []) Cmd.run) Cmd.run).runSignals
          = (execCmds []).runSignals + 1
      ∧ (step (step (execCmds []) Cmd.run) Cmd.run).trackerTrackListeners.length = 1
      ∧ TrackerTask.stop (execCmds []) = (execCmds [], none)) :=
  ⟨by decide, run_idempotent_c4 [] (by decide)⟩

/-- Claim C5, evaluated at the failing input: the first run on a fresh task
returns the task (some ()), but a second run while already running takes
the bare `return;` and yields none, not the task — contrary to the claim
and to the method's own doc comment. -/
theorem run_return_c5_eval :
    (TrackerTask.run initialTask).2 = some ()
    ∧ (TrackerTask.run (TrackerTask.run initialTask).1).2 = none := by
  decide

/-- Claim C6: on a divisor tick where the source reports not ready, the
tick performs no track invocation and only resets the counter, the loop
state is returned for the re-registered next tick; and with frequency 1 the
track invocations over M ticks are exactly the ready ticks, so a single
not-ready tick is skipped while all other ticks extract normally and the
loop never halts. -/
theorem readiness_skip_c6 (freq : Nat) (fault : Bool) (i : Nat) (s : LoopState)
    (ready : Nat → Bool) (M : Nat) (h : (s.count + 1) % freq = 0) :
    videoTick freq false fault i s = { s with count := 0 }
    ∧ (runTicks 1 ready (fun _ => false) M).tracked.map Prod.fst
        = ((List.range M).map (fun k => k + 1)).filter ready := by
  exact ⟨by simp [videoTick, h], runTicks_freq_one ready M⟩

/-- Claim C6 witness: scenario C, readiness false on tick 2 only,
frequency 1, three ticks. -/
theorem readiness_skip_c6_witness :
    (0 + 1) % 1 = 0
    ∧ (videoTick 1 false false 2 { count := 0, buffer := none, tracked := [] }
        = { count := 0, buffer := none, tracked := [] }
      ∧ (runTicks 1 (fun j => j != 2) (fun _ => false) 3).tracked.map Prod.fst
          = ((List.range 3).map (fun k => k + 1)).filter (fun j => j != 2)) :=
  ⟨by decide,
    readiness_skip_c6 1 false 2 { count := 0, buffer := none, tracked := [] }
      (fun j => j != 2) 3 (by decide)⟩

/-- Claim C7 counterexample: with no options object supplied at all, the
freq read in trackVideo_ does not default to 100 — it throws a TypeError
(the `in` operator on undefined). -/
theorem freq_default_c7_counterexample :
    trackVideoFreq none = Except.error TrackError.typeError
    ∧ trackVideoFreq none ≠ Except.ok 100 := by
  refine ⟨rfl, ?_⟩
  intro h
  exact Except.noConfusion h

/-- Claim C7 amended: when an options object is supplied, the divisor is
the value of its freq key when present and 100 when the key is absent;
when no options object is supplied the read throws a TypeError instead of
defaulting. -/
theorem freq_default_c7_amended (o : VideoOptions) :
    trackVideoFreq (some o) = Except.ok (o.freq.getD 100)
    ∧ trackVideoFreq none = Except.error TrackError.typeError := by
  refine ⟨?_, rfl⟩
  cases h : o.freq <;> simp [trackVideoFreq, h]

/-- Claim C8: a source handle resolving to no element, a missing tracker,
and an unrecognized element kind each make the track entry point throw
synchronously (the error result carries no constructed or started task),
and the TrackerTask constructor throws when no tracker instance is
supplied. -/
theorem construction_errors_c8 :
    (∀ hasTracker opts,
      track none hasTracker opts = Except.error TrackError.elementNotFound)
    ∧ (∀ k opts,
      track (some k) false opts = Except.error TrackError.trackerNotSpecified)
    ∧ (∀ opts,
      track (some ElementKind.other) true opts
        = Except.error TrackError.elementNotSupported)
    ∧ TrackerTask.new false = Except.error TrackError.trackerInstanceNotSpecified := by
  refine ⟨fun _ _ => rfl, fun k _ => ?_, fun _ => rfl, rfl⟩
  cases k <;> rfl

/-- Claim C9 counterexample: after run then stop, the task is not running
but the stored relay field reemitTrackEvent_ still holds the relay closure
(stop removes the tracker listener yet never clears the field), so the
stored handle is not null/absent as the claim states. -/
theorem relay_invariant_c9_counterexample :
    (execCmds [Cmd.run, Cmd.stop]).running = false
    ∧ (execCmds [Cmd.run, Cmd.stop]).reemitTrackEvent_ = some 0 := by
  decide

/-- Claim C9 amended: in every reachable state the relay subscription that
is actually active — the relay listener registered on the tracker's track
stream — exists exactly when the task is running; the stored closure field
itself is merely never cleared after the first run. -/
theorem relay_invariant_c9_amended (cs : List Cmd) :
    (execCmds cs).trackerTrackListeners ≠ [] ↔ (execCmds cs).running = true := by
  obtain ⟨h1, h2⟩ := inv_exec cs
  constructor
  · intro hne
    cases hb : (execCmds cs).running
    · exact absurd (h2 hb) hne
    · rfl
  · intro hr
    obtain ⟨id, _, hl⟩ := h1 hr
    rw [hl]
    simp

/-- Claim C10: calling track on a video element with no options object
throws a TypeError (raised by the freq read, before any TrackerTask is
constructed and before any tick is scheduled: the error result carries no
outcome), while an empty options object succeeds with the default divisor
100 — so tracking a video requires an options object even when only
defaults are wanted. -/
theorem track_video_no_options_c10 :
    track (some ElementKind.video) true none = Except.error TrackError.typeError
    ∧ track (some ElementKind.video) true (some { freq := none })
        = Except.ok (Outcome.videoTask 100) :=
  ⟨rfl, rfl⟩

end Tracking
